import Mathlib

/-!
Verification of the OpenULINK host-side driver command pipeline
(src/jtag/drivers/ulink.c).

This file gives a shallow embedding of the driver's command queue, the
USB batch execution, the JTAG request translators and the `execute_queue`
facade, and proves properties of them.

Modelling conventions:
 * machine integers are `Nat`/`Int`; `uint8_t` stores are written with
   `% 256`, `uint32_t` arithmetic with an explicit `% 2^32` helper;
 * C functions returning `ERROR_OK`/`ERROR_FAIL` become functions returning
   an `Outcome` (`ok`/`fail`); `exit(EXIT_FAILURE)` is modelled by the
   distinguished outcome `exited` (respectively `none` for the one `void`
   function that can exit);
 * the two USB bulk endpoints are external collaborators; they are modelled
   by an oracle (`Usb`) indexed by the number of batch executions performed
   so far, and each batch execution additionally returns the list of USB
   operations it issued, so that theorems can speak about what was put on
   the wire;
 * the driver state (`DState`) carries the command queue, the TAP state
   follower and, as pure observation instrumentation, the list `appended`
   of all wire commands ever handed to `ulink_append_queue`;
 * pointer aliasing of the shared TDO buffer of a split scan is not
   representable in a shallow embedding; each command instead carries its
   own `payload_in` view contents, and the ownership flag
   `free_payload_in_start` is modelled as a plain field.
-/

/-- The 16 states of the standard JTAG TAP state machine
(`tap_state_t` of OpenOCD's jtag interface). -/
inductive TapState where
  | reset
  | idle
  | dr_select
  | dr_capture
  | dr_shift
  | dr_exit1
  | dr_pause
  | dr_exit2
  | dr_update
  | ir_select
  | ir_capture
  | ir_shift
  | ir_exit1
  | ir_pause
  | ir_exit2
  | ir_update
  deriving DecidableEq

/-- Scan directions, `enum scan_type` of OpenOCD (`SCAN_IN`, `SCAN_OUT`, `SCAN_IO`). -/
inductive ScanType where
  | scan_in
  | scan_out
  | scan_io
  deriving DecidableEq

/-- OpenULINK wire command tags (the `CMD_...` constants of msgtypes.h).
Their concrete byte values live in OpenULINK/include/msgtypes.h, which is
not part of the translated sources; only their identity matters here, so
the id byte of a serialized command is kept symbolic. -/
inductive CmdId where
  | scan_in
  | slow_scan_in
  | scan_out
  | slow_scan_out
  | scan_io
  | slow_scan_io
  | clock_tms
  | slow_clock_tms
  | clock_tck
  | sleep_us
  | sleep_ms
  | get_signals
  | set_signals
  | configure_tck_freq
  | set_leds
  | test
  deriving DecidableEq

/-- The kind of the originating OpenOCD command (`struct jtag_command` type tag),
used by the post-processor dispatch. -/
inductive JtagKind where
  | scan
  | tlrReset
  | runtest
  | reset
  | pathmove
  | sleep
  deriving DecidableEq

/-- Payload direction selector, `enum ulink_payload_direction`. -/
inductive PayloadDirection where
  | dirOut
  | dirIn
  deriving DecidableEq

/-- Result of a driver operation: `ok` = `ERROR_OK`, `fail` = `ERROR_FAIL`,
`exited` = the process was terminated via `exit(EXIT_FAILURE)`. -/
inductive Outcome where
  | ok
  | fail
  | exited
  deriving DecidableEq

/-- One OpenULINK command queue element (`struct ulink_cmd`).
`payload_out` holds the OUT payload bytes (its length is `payload_out_size`);
`payload_in_size` and `payload_in` model the command's view into the shared
IN buffer (size of the view and, after execution, its contents). -/
structure UlinkCmd where
  id : CmdId
  payload_out : List Nat
  payload_in_size : Nat
  payload_in : List Nat
  needs_postprocessing : Bool
  free_payload_in_start : Bool
  cmd_origin : Option JtagKind
  deriving DecidableEq

/-- A default command, used only as the `getD` fallback in theorem statements. -/
def defaultCmd : UlinkCmd :=
  { id := CmdId.test, payload_out := [], payload_in_size := 0, payload_in := [],
    needs_postprocessing := false, free_payload_in_start := false, cmd_origin := none }

/-- One byte of the serialized OUT packet: either a command id byte or a
payload data byte.  Id bytes are symbolic because the `CMD_...` values live
in a header outside the translated sources. -/
inductive OutByte where
  | idByte (id : CmdId)
  | dataByte (b : Nat)
  deriving DecidableEq

/-- One USB bulk operation issued on endpoint 2, recorded for observation:
the OUT write carries the serialized packet and the requested transfer
length; the IN read carries the requested transfer length. -/
inductive UsbOp where
  | bulkWrite (data : List OutByte) (len : Nat)
  | bulkRead (len : Nat)
  deriving DecidableEq

/-- Oracle for the external USB transport, indexed by the number of batch
executions performed so far.  `writeRet clock len` is the return value of
`usb_bulk_write` for a requested length `len`; `readRet clock` is the return
value of `usb_bulk_read`; `readData clock` is the data it placed in the
64-byte buffer. -/
structure Usb where
  writeRet : Nat → Nat → Int
  readRet : Nat → Int
  readData : Nat → List Nat

/-- Oracle for the TAP path tables of the JTAG core (`tap_get_tms_path` and
`tap_get_tms_path_len`, external to the translated sources).  The claims
settled here do not depend on the concrete table values. -/
structure TapGraph where
  path : TapState → TapState → Nat
  path_len : TapState → TapState → Nat

/-- Driver state: the OpenULINK command queue (`struct ulink`), the TAP
state follower (`tap_get_state`/`tap_get_end_state`), the number of batch
executions performed so far (`usbClock`, indexing the USB oracle), and the
observation trace `appended` of every command handed to
`ulink_append_queue`. -/
structure DState where
  queue : List UlinkCmd
  tapState : TapState
  tapEndState : TapState
  usbClock : Nat
  appended : List UlinkCmd
  deriving DecidableEq

/-- Modulus of `uint32_t` arithmetic. -/
def U32MOD : Nat := 4294967296

/-- Reduction into `uint32_t` range. -/
def u32 (n : Nat) : Nat := n % U32MOD

/-- Wrapping `uint32_t` subtraction `a - b` (for `a`, `b` already reduced). -/
def u32sub (a b : Nat) : Nat := (u32 a + (U32MOD - u32 b)) % U32MOD

/-- Modelled from the spec: `tap_is_state_stable` lives in OpenOCD's JTAG
core (src/jtag/interface.h side), outside the translated sources.  Per the
spec glossary ("Shift / Pause / Idle / Reset — stable TAP states") and the
driver's own use (the scan translator sets the end state to a SHIFT state),
the stable states are Reset, Idle, and the Shift and Pause states of both
register families. -/
def tap_is_state_stable (s : TapState) : Bool :=
  match s with
  | TapState.reset => true
  | TapState.idle => true
  | TapState.dr_shift => true
  | TapState.dr_pause => true
  | TapState.ir_shift => true
  | TapState.ir_pause => true
  | _ => false

/-- `ulink_set_end_state` (ulink.c:1241).  The C function returns `void`:
if the requested end state is stable it updates the end state follower,
otherwise it calls `exit(EXIT_FAILURE)`.  The process-terminating branch is
modelled by `none`; `some s` models the follower update. -/
def ulink_set_end_state (endstate : TapState) : Option TapState :=
  if tap_is_state_stable endstate then some endstate else none

/-- `ulink_get_queue_size` (ulink.c:559): number of bytes currently stored
in the queue for one direction, counting one id byte per command for the
OUT direction. -/
def ulink_get_queue_size (q : List UlinkCmd) (dir : PayloadDirection) : Nat :=
  match q with
  | [] => 0
  | c :: rest =>
    (match dir with
     | PayloadDirection.dirOut => c.payload_out.length + 1
     | PayloadDirection.dirIn => c.payload_in_size) + ulink_get_queue_size rest dir

/-- Serialization loop of `ulink_execute_queued_commands` (ulink.c:697):
each command contributes its id byte followed by its OUT payload bytes. -/
def serializeQueue : List UlinkCmd → List OutByte
  | [] => []
  | c :: rest => OutByte.idByte c.id :: (c.payload_out.map OutByte.dataByte ++ serializeQueue rest)

/-- Write-back loop of `ulink_execute_queued_commands` (ulink.c:733):
the IN buffer is scattered over the commands in queue order, each command
receiving the next `payload_in_size` bytes into its view. -/
def scatterQueue : List UlinkCmd → List Nat → List UlinkCmd
  | [], _ => []
  | c :: rest, buf =>
    { c with payload_in := buf.take c.payload_in_size } ::
      scatterQueue rest (buf.drop c.payload_in_size)

/-- `ulink_execute_queued_commands` (ulink.c:683).  Serializes the queue,
issues the bulk OUT write of `count_out` bytes, and, iff any IN payload is
expected, a bulk IN read with a requested length of 64 bytes (the size of
the read buffer in the C code), failing unless exactly `count_in` bytes
come back; on success the IN data is scattered over the queue.  Returns
the trace of USB operations issued and `none` on `ERROR_FAIL`. -/
def ulink_execute_queued_commands (usb : Usb) (clock : Nat) (q : List UlinkCmd) :
    List UsbOp × Option (List UlinkCmd) :=
  let buffer := serializeQueue q
  let count_out := ulink_get_queue_size q PayloadDirection.dirOut
  let count_in := ulink_get_queue_size q PayloadDirection.dirIn
  let wr := usb.writeRet clock count_out
  if wr < 0 then ([UsbOp.bulkWrite buffer count_out], none)
  else if wr ≠ (count_out : Int) then ([UsbOp.bulkWrite buffer count_out], none)
  else if 0 < count_in then
    let rr := usb.readRet clock
    if rr < 0 then ([UsbOp.bulkWrite buffer count_out, UsbOp.bulkRead 64], none)
    else if rr ≠ (count_in : Int) then
      ([UsbOp.bulkWrite buffer count_out, UsbOp.bulkRead 64], none)
    else
      ([UsbOp.bulkWrite buffer count_out, UsbOp.bulkRead 64],
        some (scatterQueue q (usb.readData clock)))
  else ([UsbOp.bulkWrite buffer count_out], some q)

/-- Post-processing of one command (`ulink_post_process_queue` body,
ulink.c:1600).  Commands without postprocessing flag or without origin are
skipped; scans are handed to `jtag_read_buffer` (external, modelled as
succeeding); the remaining known kinds have nothing to do. -/
def ulink_post_process_one (c : UlinkCmd) : Outcome :=
  if c.needs_postprocessing then
    match c.cmd_origin with
    | none => Outcome.ok
    | some JtagKind.scan => Outcome.ok
    | some _ => Outcome.ok
  else Outcome.ok

/-- `ulink_post_process_queue` (ulink.c:1592): walk the queue, stopping at
the first failing post-processing step. -/
def ulink_post_process_queue : List UlinkCmd → Outcome
  | [] => Outcome.ok
  | c :: rest =>
    match ulink_post_process_one c with
    | Outcome.ok => ulink_post_process_queue rest
    | o => o

/-- Append a command at the tail of the queue (the linked-list append of
ulink.c:658-671), also recording it in the observation trace. -/
def enqueueCmd (st : DState) (c : UlinkCmd) : DState :=
  { st with queue := st.queue ++ [c], appended := st.appended ++ [c] }

/-- `ulink_append_queue` (ulink.c:630).  If the command would push either
running byte count above 64, the pending queue is first executed,
post-processed and cleared (errors propagate without appending); then the
command is appended. -/
def ulink_append_queue (usb : Usb) (st : DState) (c : UlinkCmd) : DState × Outcome :=
  let newsize_out := ulink_get_queue_size st.queue PayloadDirection.dirOut
      + 1 + c.payload_out.length
  let newsize_in := ulink_get_queue_size st.queue PayloadDirection.dirIn
      + c.payload_in_size
  if 64 < newsize_out ∨ 64 < newsize_in then
    match ulink_execute_queued_commands usb st.usbClock st.queue with
    | (_, none) => ({ st with usbClock := st.usbClock + 1 }, Outcome.fail)
    | (_, some q2) =>
      let st2 := { st with usbClock := st.usbClock + 1, queue := q2 }
      match ulink_post_process_queue st2.queue with
      | Outcome.ok => (enqueueCmd { st2 with queue := [] } c, Outcome.ok)
      | o => (st2, o)
  else (enqueueCmd st c, Outcome.ok)

/-- The command built by `ulink_append_scan_cmd` (ulink.c:876) once its size
guard has passed: 5 header bytes
`[bytes, bits_last_byte, (tms_count_start << 4) | tms_count_end,
tms_seq_start, tms_seq_end]`, followed, for OUT and IO scans, by
`scan_size_bytes` TDI bytes taken from the caller's TDI buffer at offset
`tdi_off` (the calloc'ed payload is zero beyond the buffer).  IN and IO
scans carry an IN view of `scan_size_bytes` bytes. -/
def mk_scan_cmd (type : ScanType) (scan_size_bits : Nat) (tdi : List Nat) (tdi_off : Nat)
    (tms_count_start tms_sequence_start tms_count_end tms_sequence_end : Nat)
    (origin : Option JtagKind) (postprocess : Bool) : UlinkCmd :=
  let scan_size_bytes := (scan_size_bits + 7) / 8
  let blb := scan_size_bits % 8
  let bits_last_byte := if blb = 0 then 8 else blb
  let header : List Nat :=
    [scan_size_bytes % 256, bits_last_byte % 256,
     (tms_count_start % 16) * 16 + tms_count_end % 16,
     tms_sequence_start % 256, tms_sequence_end % 256]
  { id :=
      (match type with
       | ScanType.scan_in => CmdId.scan_in
       | ScanType.scan_out => CmdId.scan_out
       | ScanType.scan_io => CmdId.scan_io),
    payload_out :=
      (match type with
       | ScanType.scan_in => header
       | _ => header ++ (List.range scan_size_bytes).map (fun i => tdi.getD (tdi_off + i) 0)),
    payload_in_size :=
      (match type with
       | ScanType.scan_out => 0
       | _ => scan_size_bytes),
    payload_in :=
      (match type with
       | ScanType.scan_out => []
       | _ => List.replicate scan_size_bytes 0),
    needs_postprocessing := postprocess,
    free_payload_in_start := postprocess,
    cmd_origin := origin }

/-- `ulink_append_scan_cmd` (ulink.c:876): rejects scans above the 58-byte
TDI payload ceiling (`58 * 8` bits), otherwise builds the scan command and
appends it to the queue. -/
def ulink_append_scan_cmd (usb : Usb) (st : DState) (type : ScanType)
    (scan_size_bits : Nat) (tdi : List Nat) (tdi_off : Nat)
    (tms_count_start tms_sequence_start tms_count_end tms_sequence_end : Nat)
    (origin : Option JtagKind) (postprocess : Bool) : DState × Outcome :=
  if 58 * 8 < scan_size_bits then (st, Outcome.fail)
  else
    ulink_append_queue usb st
      (mk_scan_cmd type scan_size_bits tdi tdi_off tms_count_start tms_sequence_start
        tms_count_end tms_sequence_end origin postprocess)

/-- The command built by `ulink_append_clock_tms_cmd` (ulink.c:970):
two OUT payload bytes `[count, sequence]`, no IN payload. -/
def mk_clock_tms_cmd (count sequence : Nat) : UlinkCmd :=
  { id := CmdId.clock_tms, payload_out := [count % 256, sequence % 256],
    payload_in_size := 0, payload_in := [], needs_postprocessing := false,
    free_payload_in_start := false, cmd_origin := none }

/-- `ulink_append_clock_tms_cmd` (ulink.c:970). -/
def ulink_append_clock_tms_cmd (usb : Usb) (st : DState) (count sequence : Nat) :
    DState × Outcome :=
  ulink_append_queue usb st (mk_clock_tms_cmd count sequence)

/-- The command built by `ulink_append_clock_tck_cmd` (ulink.c:1004):
two OUT payload bytes holding the 16-bit cycle count little-endian. -/
def mk_clock_tck_cmd (count : Nat) : UlinkCmd :=
  { id := CmdId.clock_tck, payload_out := [count % 256, count / 256 % 256],
    payload_in_size := 0, payload_in := [], needs_postprocessing := false,
    free_payload_in_start := false, cmd_origin := none }

/-- `ulink_append_clock_tck_cmd` (ulink.c:1004). -/
def ulink_append_clock_tck_cmd (usb : Usb) (st : DState) (count : Nat) :
    DState × Outcome :=
  ulink_append_queue usb st (mk_clock_tck_cmd count)

/-- The command built by `ulink_append_get_signals_cmd` (ulink.c:1034):
no OUT payload, a two-byte IN payload, flagged for post-processing; the IN
allocation makes it the owner of its IN buffer. -/
def mk_get_signals_cmd : UlinkCmd :=
  { id := CmdId.get_signals, payload_out := [], payload_in_size := 2,
    payload_in := List.replicate 2 0, needs_postprocessing := true,
    free_payload_in_start := true, cmd_origin := none }

/-- The command built by `ulink_append_set_signals_cmd` (ulink.c:1073):
two OUT payload bytes `[low, high]`. -/
def mk_set_signals_cmd (low high : Nat) : UlinkCmd :=
  { id := CmdId.set_signals, payload_out := [low % 256, high % 256],
    payload_in_size := 0, payload_in := [], needs_postprocessing := false,
    free_payload_in_start := false, cmd_origin := none }

/-- `ulink_append_set_signals_cmd` (ulink.c:1073). -/
def ulink_append_set_signals_cmd (usb : Usb) (st : DState) (low high : Nat) :
    DState × Outcome :=
  ulink_append_queue usb st (mk_set_signals_cmd low high)

/-- The command built by `ulink_append_sleep_cmd` (ulink.c:1106): two OUT
payload bytes `[us & 0xff, (us >> 8) & 0xff]`. -/
def mk_sleep_cmd (us : Nat) : UlinkCmd :=
  { id := CmdId.sleep_us, payload_out := [us % 256, us / 256 % 256],
    payload_in_size := 0, payload_in := [], needs_postprocessing := false,
    free_payload_in_start := false, cmd_origin := none }

/-- `ulink_append_sleep_cmd` (ulink.c:1106). -/
def ulink_append_sleep_cmd (usb : Usb) (st : DState) (us : Nat) : DState × Outcome :=
  ulink_append_queue usb st (mk_sleep_cmd us)

/-- `ulink_queue_statemove` (ulink.c:1259): if the TAP is not already at
the end state, emit one clock-tms command for the table path and, on
success, update the current state. -/
def ulink_queue_statemove (g : TapGraph) (usb : Usb) (st : DState) : DState × Outcome :=
  if st.tapState = st.tapEndState then (st, Outcome.ok)
  else
    let tms_sequence := g.path st.tapState st.tapEndState
    let tms_count := g.path_len st.tapState st.tapEndState
    let r := ulink_append_clock_tms_cmd usb st tms_count tms_sequence
    if r.2 = Outcome.ok then ({ r.1 with tapState := r.1.tapEndState }, Outcome.ok) else r

/-- The chunking loop of `ulink_queue_scan` (ulink.c:1374-1429).
`bytecount` counts the TDI bytes still to emit; a chunk of more than 58
bytes emits a full 58-byte command ending in the pause path and continues,
a chunk of exactly 58 bytes emits a full final command, and a smaller rest
emits a final command of `bits_last_scan` bits; final commands end in the
exit path and are flagged for post-processing.  The structural `fuel`
argument bounds the recursion depth; callers pass `scan_size_bytes`, which
always suffices because every iteration consumes 58 bytes. -/
def ulink_queue_scan_loop (usb : Usb) (type : ScanType)
    (scan_size_bytes bits_last_scan : Nat) (tdi : List Nat) (origin : Option JtagKind)
    (first_c first_s resume_c resume_s pause_c pause_s last_c last_s : Nat) :
    Nat → DState → Nat → Nat → DState × Outcome
  | fuel, st, bytecount, tdi_off =>
    if bytecount = 0 then (st, Outcome.ok)
    else
      let tms_count_start := if bytecount = scan_size_bytes then first_c else resume_c
      let tms_sequence_start := if bytecount = scan_size_bytes then first_s else resume_s
      if 58 < bytecount then
        match fuel with
        | 0 => (st, Outcome.fail)
        | fuel2 + 1 =>
          match ulink_append_scan_cmd usb st type (58 * 8) tdi tdi_off
              tms_count_start tms_sequence_start pause_c pause_s origin false with
          | (st2, Outcome.ok) =>
            ulink_queue_scan_loop usb type scan_size_bytes bits_last_scan tdi origin
              first_c first_s resume_c resume_s pause_c pause_s last_c last_s
              fuel2 st2 (bytecount - 58)
              (if type = ScanType.scan_in then tdi_off else tdi_off + 58)
          | r => r
      else if bytecount = 58 then
        ulink_append_scan_cmd usb st type (58 * 8) tdi tdi_off
          tms_count_start tms_sequence_start last_c last_s origin true
      else
        ulink_append_scan_cmd usb st type bits_last_scan tdi tdi_off
          tms_count_start tms_sequence_start last_c last_s origin true

/-- `ulink_queue_scan` (ulink.c:1289).  Computes the chunking parameters
(`DIV_ROUND_UP` and the size of the last chunk in `uint32_t` arithmetic),
derives the enter-shift, exit-to-end, pause and resume TMS paths (the two
C branches for IR and DR scans are symmetric in the shift and pause
states), runs the chunking loop and, on success, sets the current TAP
state to the requested end state. -/
def ulink_queue_scan (g : TapGraph) (usb : Usb) (st : DState) (ir_scan : Bool)
    (type : ScanType) (scan_size_bits : Nat) (tdi : List Nat) (end_state : TapState) :
    DState × Outcome :=
  let scan_size_bytes := u32 (scan_size_bits + 7) / 8
  let scans_max_payload := scan_size_bytes / 58
  let bits_last_scan := u32sub scan_size_bits (scans_max_payload * (58 * 8))
  let shiftState := if ir_scan then TapState.ir_shift else TapState.dr_shift
  let pauseState := if ir_scan then TapState.ir_pause else TapState.dr_pause
  match ulink_set_end_state shiftState with
  | none => (st, Outcome.exited)
  | some es1 =>
    let st1 := { st with tapEndState := es1 }
    let first_c := g.path_len st1.tapState st1.tapEndState
    let first_s := g.path st1.tapState st1.tapEndState
    let st2 := { st1 with tapState := shiftState, tapEndState := end_state }
    let last_c := g.path_len st2.tapState st2.tapEndState
    let last_s := g.path st2.tapState st2.tapEndState
    let pause_c := g.path_len shiftState pauseState
    let pause_s := g.path shiftState pauseState
    let resume_c := g.path_len pauseState shiftState
    let resume_s := g.path pauseState shiftState
    let r := ulink_queue_scan_loop usb type scan_size_bytes bits_last_scan tdi
      (some JtagKind.scan) first_c first_s resume_c resume_s pause_c pause_s
      last_c last_s scan_size_bytes st2 scan_size_bytes 0
    if r.2 = Outcome.ok then ({ r.1 with tapState := end_state }, Outcome.ok) else r

/-- `ulink_queue_tlr_reset` (ulink.c:1447): one clock-tms command with
count 5 and sequence 0xFF; on success the current TAP state becomes
Reset. -/
def ulink_queue_tlr_reset (usb : Usb) (st : DState) : DState × Outcome :=
  let r := ulink_append_clock_tms_cmd usb st 5 0xff
  if r.2 = Outcome.ok then ({ r.1 with tapState := TapState.reset }, Outcome.ok) else r

/-- `ulink_queue_runtest` (ulink.c:1471).  If the TAP is not in Idle, move
there first — the result of this statemove is discarded by the C code.
Then emit one clock-tck command (errors propagate), and if the requested
end state differs from the current state, move there — that statemove
result is also discarded. -/
def ulink_queue_runtest (g : TapGraph) (usb : Usb) (st : DState)
    (num_cycles : Nat) (end_state : TapState) : DState × Outcome :=
  let pre : Option DState :=
    if st.tapState ≠ TapState.idle then
      match ulink_set_end_state TapState.idle with
      | none => none
      | some es => some (ulink_queue_statemove g usb { st with tapEndState := es }).1
    else some st
  match pre with
  | none => (st, Outcome.exited)
  | some st1 =>
    let r := ulink_append_clock_tck_cmd usb st1 num_cycles
    if r.2 = Outcome.ok then
      let st2 := r.1
      let st3 :=
        if end_state ≠ st2.tapState then
          (ulink_queue_statemove g usb { st2 with tapEndState := end_state }).1
        else st2
      (st3, Outcome.ok)
    else r

/-- Signal mask bits.  Modelled from the spec: the `SIGNAL_...` constants
live in OpenULINK/include/msgtypes.h, outside the translated sources; bit
positions follow the signal list of the driver's own documentation
(TDI, TMS, TCK, TRST, BRKIN, RESET, OCDSE).  The claims settled here do
not depend on the concrete values. -/
def SIGNAL_TRST : Nat := 8

/-- Modelled from the spec: see `SIGNAL_TRST`. -/
def SIGNAL_RESET : Nat := 32

/-- `ulink_queue_reset` (ulink.c:1503).  If TRST is asserted the current
TAP state is set to Reset (before the append, and unconditionally of its
outcome) and TRST goes on the high mask, else on the low mask; likewise
SRST with the RESET bit; then one set-signals command is appended. -/
def ulink_queue_reset (usb : Usb) (st : DState) (trst srst : Bool) : DState × Outcome :=
  let st1 := if trst then { st with tapState := TapState.reset } else st
  let high1 := if trst then SIGNAL_TRST else 0
  let low1 := if trst then 0 else SIGNAL_TRST
  let high2 := if srst then high1 ||| SIGNAL_RESET else high1
  let low2 := if srst then low1 else low1 ||| SIGNAL_RESET
  ulink_append_set_signals_cmd usb st1 low2 high2

/-- `ulink_queue_pathmove` (ulink.c:1533): not implemented in the source;
returns success without emitting anything. -/
def ulink_queue_pathmove (st : DState) : DState × Outcome := (st, Outcome.ok)

/-- `ulink_queue_sleep` (ulink.c:1547): always translated to an
adapter-side sleep command; no host-side delay. -/
def ulink_queue_sleep (usb : Usb) (st : DState) (us : Nat) : DState × Outcome :=
  ulink_append_sleep_cmd usb st us

/-- An abstract JTAG request (`struct jtag_command`), carrying the fields
the translators read: for scans, the IR/DR flag, scan type, bit count,
TDI data and end state (`jtag_scan_size`, `jtag_scan_type` and
`jtag_build_buffer` are external accessors of the jtag core). -/
inductive JtagRequest where
  | scan (ir_scan : Bool) (type : ScanType) (bits : Nat) (tdi : List Nat)
      (end_state : TapState)
  | tlrReset
  | runtest (num_cycles : Nat) (end_state : TapState)
  | reset (trst srst : Bool)
  | pathmove
  | sleep (us : Nat)
  deriving DecidableEq

/-- Dispatch of `ulink_execute_queue` (ulink.c:1655-1679): one translator
per request kind. -/
def ulink_process_one (g : TapGraph) (usb : Usb) (st : DState) :
    JtagRequest → DState × Outcome
  | JtagRequest.scan ir type bits tdi es => ulink_queue_scan g usb st ir type bits tdi es
  | JtagRequest.tlrReset => ulink_queue_tlr_reset usb st
  | JtagRequest.runtest n es => ulink_queue_runtest g usb st n es
  | JtagRequest.reset trst srst => ulink_queue_reset usb st trst srst
  | JtagRequest.pathmove => ulink_queue_pathmove st
  | JtagRequest.sleep us => ulink_queue_sleep usb st us

/-- Request loop of `ulink_execute_queue` (ulink.c:1655): translate each
request in order, stopping at the first non-OK result. -/
def ulink_execute_queue_loop (g : TapGraph) (usb : Usb) :
    DState → List JtagRequest → DState × Outcome
  | st, [] => (st, Outcome.ok)
  | st, r :: rest =>
    let p := ulink_process_one g usb st r
    if p.2 = Outcome.ok then ulink_execute_queue_loop g usb p.1 rest else p

/-- `ulink_execute_queue` (ulink.c:1650).  After the translation loop, a
non-empty remaining queue is executed, post-processed and cleared; errors
of any stage are returned to the caller. -/
def ulink_execute_queue (g : TapGraph) (usb : Usb) (st : DState)
    (reqs : List JtagRequest) : DState × Outcome :=
  let p := ulink_execute_queue_loop g usb st reqs
  if p.2 = Outcome.ok then
    if 0 < p.1.queue.length then
      match (ulink_execute_queued_commands usb p.1.usbClock p.1.queue).2 with
      | none => ({ p.1 with usbClock := p.1.usbClock + 1 }, Outcome.fail)
      | some q2 =>
        let st3 := { p.1 with usbClock := p.1.usbClock + 1, queue := q2 }
        if ulink_post_process_queue st3.queue = Outcome.ok then
          ({ st3 with queue := [] }, Outcome.ok)
        else (st3, ulink_post_process_queue st3.queue)
    else (p.1, Outcome.ok)
  else p

/-- `ERROR_OK` of OpenOCD. -/
def ERROR_OK : Int := 0

/-- `ulink_speed_div` (ulink.c:1747): the switch writes 150 kHz for speed
index 0 and 100 kHz for index 1 and falls through for every other index,
always returning `ERROR_OK`.  The pair returned is (return value, value of
`*khz` after the call). -/
def ulink_speed_div (speed : Int) (khz : Int) : Int × Int :=
  if speed = 0 then (ERROR_OK, 150)
  else if speed = 1 then (ERROR_OK, 100)
  else (ERROR_OK, khz)

/-- Driver states whose queue arose from an empty queue by appending
commands through `ulink_append_queue`, every appended command obeying the
per-command bounds that every constructor of the driver guarantees
(OUT payload at most 63 bytes, IN view at most 64 bytes). -/
inductive QueueReachable (usb : Usb) : DState → Prop where
  | empty (st : DState) (h : st.queue = []) : QueueReachable usb st
  | append (st : DState) (c : UlinkCmd) (hr : QueueReachable usb st)
      (hout : c.payload_out.length ≤ 63) (hin : c.payload_in_size ≤ 64) :
      QueueReachable usb (ulink_append_queue usb st c).1

/-! Concrete fixtures used to evaluate the model on closed inputs. -/

/-- A TAP path table oracle whose entries are all zero (the settled claims
do not depend on the table values). -/
def g0 : TapGraph := { path := fun _ _ => 0, path_len := fun _ _ => 0 }

/-- USB oracle on which every transfer succeeds with the requested length. -/
def usbOk : Usb :=
  { writeRet := fun _ n => (n : Int), readRet := fun _ => 0, readData := fun _ => [] }

/-- USB oracle on which every bulk write fails outright. -/
def usbAllFail : Usb :=
  { writeRet := fun _ _ => -1, readRet := fun _ => -1, readData := fun _ => [] }

/-- USB oracle on which only the first bulk write (batch execution 0)
fails; all later writes succeed. -/
def usbFail0 : Usb :=
  { writeRet := fun clock n => if clock = 0 then -1 else (n : Int),
    readRet := fun _ => 0, readData := fun _ => [] }

/-- USB oracle that answers a two-byte IN transfer with `[17, 34]`. -/
def usbSig : Usb :=
  { writeRet := fun _ n => (n : Int), readRet := fun _ => 2,
    readData := fun _ => [17, 34] }

/-- Fresh driver state: empty queue, TAP follower in Reset. -/
def st0 : DState :=
  { queue := [], tapState := TapState.reset, tapEndState := TapState.reset,
    usbClock := 0, appended := [] }

/-- A 63-byte-payload command: together with its id byte it fills the
64-byte OUT budget completely. -/
def bigCmd : UlinkCmd :=
  { id := CmdId.test, payload_out := List.replicate 63 0, payload_in_size := 0,
    payload_in := [], needs_postprocessing := false, free_payload_in_start := false,
    cmd_origin := none }

/-- Driver state whose queue already occupies the full 64-byte OUT budget. -/
def st1 : DState := { st0 with queue := [bigCmd] }

/-- A queue holding a single get-signals command (`count_in = 2`). -/
def q1 : List UlinkCmd := [mk_get_signals_cmd]

/-- Request list that fills the OUT budget with 21 three-byte sleep
commands (63 bytes) and then issues a runtest: the runtest's internal
statemove triggers a queue flush whose transport error the source
discards. -/
def reqsSwallow : List JtagRequest :=
  List.replicate 21 (JtagRequest.sleep 0) ++ [JtagRequest.runtest 1 TapState.idle]

/-! Helper lemmas about the queue primitives. -/

theorem ulink_get_queue_size_append (q1 q2 : List UlinkCmd) (d : PayloadDirection) :
    ulink_get_queue_size (q1 ++ q2) d
      = ulink_get_queue_size q1 d + ulink_get_queue_size q2 d := by
  induction q1 with
  | nil => simp [ulink_get_queue_size]
  | cons c rest ih =>
    cases d <;> simp [ulink_get_queue_size, ih] <;> omega

theorem ulink_get_queue_size_scatter (q : List UlinkCmd) (b : List Nat)
    (d : PayloadDirection) :
    ulink_get_queue_size (scatterQueue q b) d = ulink_get_queue_size q d := by
  induction q generalizing b with
  | nil => simp [scatterQueue]
  | cons c rest ih => cases d <;> simp [scatterQueue, ulink_get_queue_size, ih]

theorem serializeQueue_length (q : List UlinkCmd) :
    (serializeQueue q).length = ulink_get_queue_size q PayloadDirection.dirOut := by
  induction q with
  | nil => rfl
  | cons c rest ih => simp [serializeQueue, ulink_get_queue_size, ih]; omega

theorem ulink_post_process_one_ok (c : UlinkCmd) : ulink_post_process_one c = Outcome.ok := by
  unfold ulink_post_process_one
  rcases hc : c.cmd_origin with _ | k
  · split <;> rfl
  · cases k <;> split <;> rfl

theorem ulink_post_process_queue_ok (q : List UlinkCmd) :
    ulink_post_process_queue q = Outcome.ok := by
  induction q with
  | nil => rfl
  | cons c rest ih => simp [ulink_post_process_queue, ulink_post_process_one_ok, ih]

theorem ulink_execute_queued_commands_size (usb : Usb) (clock : Nat)
    (q q2 : List UlinkCmd) (d : PayloadDirection)
    (h : (ulink_execute_queued_commands usb clock q).2 = some q2) :
    ulink_get_queue_size q2 d = ulink_get_queue_size q d := by
  simp only [ulink_execute_queued_commands] at h
  split_ifs at h <;> simp at h <;> subst h
  · exact ulink_get_queue_size_scatter q _ d
  · rfl

theorem ulink_append_queue_tap (usb : Usb) (st : DState) (c : UlinkCmd) :
    (ulink_append_queue usb st c).1.tapState = st.tapState ∧
    (ulink_append_queue usb st c).1.tapEndState = st.tapEndState := by
  by_cases hov : 64 < ulink_get_queue_size st.queue PayloadDirection.dirOut
        + 1 + c.payload_out.length ∨
      64 < ulink_get_queue_size st.queue PayloadDirection.dirIn + c.payload_in_size
  · rcases hE : ulink_execute_queued_commands usb st.usbClock st.queue with ⟨tr, q2⟩
    cases q2 with
    | none => simp [ulink_append_queue, hov, hE]
    | some q2 => simp [ulink_append_queue, hov, hE, ulink_post_process_queue_ok, enqueueCmd]
  · simp [ulink_append_queue, hov, enqueueCmd]

theorem ulink_append_queue_ok_appended (usb : Usb) (st : DState) (c : UlinkCmd)
    (h : (ulink_append_queue usb st c).2 = Outcome.ok) :
    (ulink_append_queue usb st c).1.appended = st.appended ++ [c] := by
  by_cases hov : 64 < ulink_get_queue_size st.queue PayloadDirection.dirOut
        + 1 + c.payload_out.length ∨
      64 < ulink_get_queue_size st.queue PayloadDirection.dirIn + c.payload_in_size
  · rcases hE : ulink_execute_queued_commands usb st.usbClock st.queue with ⟨tr, q2⟩
    cases q2 with
    | none => simp [ulink_append_queue, hov, hE] at h
    | some q2 => simp [ulink_append_queue, hov, hE, ulink_post_process_queue_ok, enqueueCmd]
  · simp [ulink_append_queue, hov, enqueueCmd]

theorem ulink_append_scan_cmd_ok_appended (usb : Usb) (st : DState) (type : ScanType)
    (bits : Nat) (tdi : List Nat) (off a b e f : Nat) (origin : Option JtagKind)
    (pp : Bool)
    (h : (ulink_append_scan_cmd usb st type bits tdi off a b e f origin pp).2 = Outcome.ok) :
    (ulink_append_scan_cmd usb st type bits tdi off a b e f origin pp).1.appended
      = st.appended ++ [mk_scan_cmd type bits tdi off a b e f origin pp] := by
  unfold ulink_append_scan_cmd at h ⊢
  by_cases hg : 58 * 8 < bits
  · simp [hg] at h
  · simp only [hg, if_false]
    exact ulink_append_queue_ok_appended usb st _ (by simpa [hg] using h)

theorem mk_scan_cmd_full (type : ScanType) (tdi : List Nat) (off a b e f : Nat)
    (origin : Option JtagKind) :
    (mk_scan_cmd type (58 * 8) tdi off a b e f origin false).payload_out.getD 0 0 = 58 ∧
    (mk_scan_cmd type (58 * 8) tdi off a b e f origin false).payload_out.length
      = (if type = ScanType.scan_in then 5 else 63) := by
  cases type <;> simp [mk_scan_cmd]

theorem scatterQueue_getD (q : List UlinkCmd) (b : List Nat) (i : Nat) (h : i < q.length) :
    (scatterQueue q b).getD i defaultCmd
      = { q.getD i defaultCmd with
          payload_in := (b.drop (ulink_get_queue_size (q.take i) PayloadDirection.dirIn)).take
            (q.getD i defaultCmd).payload_in_size } := by
  induction q generalizing b i with
  | nil => simp at h
  | cons c rest ih =>
    cases i with
    | zero => simp [scatterQueue, ulink_get_queue_size]
    | succ j =>
      have hj : j < rest.length := by simpa using h
      simp only [scatterQueue, List.getD_cons_succ, List.take_succ_cons, ulink_get_queue_size]
      rw [ih (b.drop c.payload_in_size) j hj, List.drop_drop, Nat.add_comm]

theorem ulink_queue_scan_loop_last (usb : Usb) (type : ScanType)
    (ssb bls : Nat) (tdi : List Nat) (origin : Option JtagKind)
    (fc fs rc rs pc ps lc ls : Nat) (fuel : Nat) (st : DState) (B off : Nat)
    (h1 : 1 ≤ B) (h2 : B ≤ 58) :
    ulink_queue_scan_loop usb type ssb bls tdi origin fc fs rc rs pc ps lc ls
        fuel st B off
      = ulink_append_scan_cmd usb st type (if B = 58 then 58 * 8 else bls) tdi off
          (if B = ssb then fc else rc) (if B = ssb then fs else rs) lc ls origin true := by
  have hB0 : ¬ B = 0 := by omega
  have h58 : ¬ 58 < B := by omega
  rw [ulink_queue_scan_loop]
  by_cases hB58 : B = 58 <;> simp [hB0, h58, hB58]

theorem ulink_queue_scan_loop_step (usb : Usb) (type : ScanType)
    (ssb bls : Nat) (tdi : List Nat) (origin : Option JtagKind)
    (fc fs rc rs pc ps lc ls : Nat) (f : Nat) (st : DState) (B off : Nat)
    (h58 : 58 < B) :
    ulink_queue_scan_loop usb type ssb bls tdi origin fc fs rc rs pc ps lc ls
        (f + 1) st B off
      = (match ulink_append_scan_cmd usb st type (58 * 8) tdi off
            (if B = ssb then fc else rc) (if B = ssb then fs else rs) pc ps origin false with
         | (st2, Outcome.ok) =>
           ulink_queue_scan_loop usb type ssb bls tdi origin fc fs rc rs pc ps lc ls
             f st2 (B - 58) (if type = ScanType.scan_in then off else off + 58)
         | r => r) := by
  have hB0 : ¬ B = 0 := by omega
  rw [ulink_queue_scan_loop]
  simp [hB0, h58]

theorem ulink_queue_scan_loop_chunks (usb : Usb) (type : ScanType)
    (ssb bls : Nat) (tdi : List Nat) (origin : Option JtagKind)
    (fc fs rc rs pc ps lc ls : Nat) :
    ∀ (fuel : Nat) (st : DState) (B off : Nat), 1 ≤ B → B ≤ 58 * fuel + 58 →
      (ulink_queue_scan_loop usb type ssb bls tdi origin fc fs rc rs pc ps lc ls
          fuel st B off).2 = Outcome.ok →
      ∃ chunks : List UlinkCmd,
        (ulink_queue_scan_loop usb type ssb bls tdi origin fc fs rc rs pc ps lc ls
            fuel st B off).1.appended = st.appended ++ chunks ∧
        chunks.length = (B + 57) / 58 ∧
        ∀ c ∈ chunks.dropLast, c.payload_out.getD 0 0 = 58 ∧
          c.payload_out.length = (if type = ScanType.scan_in then 5 else 63) := by
  intro fuel
  induction fuel with
  | zero =>
    intro st B off h1 h2 hok
    rw [ulink_queue_scan_loop_last usb type ssb bls tdi origin fc fs rc rs pc ps lc ls
      0 st B off h1 (by omega)] at hok ⊢
    refine ⟨[mk_scan_cmd type (if B = 58 then 58 * 8 else bls) tdi off
        (if B = ssb then fc else rc) (if B = ssb then fs else rs) lc ls origin true],
      ulink_append_scan_cmd_ok_appended usb st type _ tdi off _ _ lc ls origin true hok,
      ?_, by simp⟩
    simp only [List.length_singleton]
    omega
  | succ f ih =>
    intro st B off h1 h2 hok
    by_cases h58 : 58 < B
    · rw [ulink_queue_scan_loop_step usb type ssb bls tdi origin fc fs rc rs pc ps lc ls
        f st B off h58] at hok ⊢
      rcases happ : ulink_append_scan_cmd usb st type (58 * 8) tdi off
          (if B = ssb then fc else rc) (if B = ssb then fs else rs) pc ps origin false
        with ⟨st2, o⟩
      rw [happ] at hok
      cases o with
      | ok =>
        dsimp only at hok ⊢
        obtain ⟨chunks2, hap2, hlen2, hprop2⟩ := ih st2 (B - 58)
          (if type = ScanType.scan_in then off else off + 58) (by omega) (by omega) hok
        have hst2 : st2.appended = st.appended ++ [mk_scan_cmd type (58 * 8) tdi off
            (if B = ssb then fc else rc) (if B = ssb then fs else rs) pc ps origin false] := by
          have haux := ulink_append_scan_cmd_ok_appended usb st type (58 * 8) tdi off
            (if B = ssb then fc else rc) (if B = ssb then fs else rs) pc ps origin false
            (by rw [happ])
          rw [happ] at haux
          exact haux
        refine ⟨mk_scan_cmd type (58 * 8) tdi off
            (if B = ssb then fc else rc) (if B = ssb then fs else rs) pc ps origin false
            :: chunks2, ?_, ?_, ?_⟩
        · rw [hap2, hst2]
          simp
        · simp only [List.length_cons, hlen2]
          omega
        · intro c hc
          have hne : 1 ≤ chunks2.length := by rw [hlen2]; omega
          rcases chunks2 with _ | ⟨c2, rest2⟩
          · simp at hne
          · rw [show (mk_scan_cmd type (58 * 8) tdi off
                (if B = ssb then fc else rc) (if B = ssb then fs else rs) pc ps origin false
                :: c2 :: rest2).dropLast
                = mk_scan_cmd type (58 * 8) tdi off
                  (if B = ssb then fc else rc) (if B = ssb then fs else rs) pc ps origin false
                  :: (c2 :: rest2).dropLast from rfl] at hc
            rcases List.mem_cons.mp hc with rfl | hc2
            · exact mk_scan_cmd_full type tdi off _ _ pc ps origin
            · exact hprop2 c hc2
      | fail => simp at hok
      | exited => simp at hok
    · rw [ulink_queue_scan_loop_last usb type ssb bls tdi origin fc fs rc rs pc ps lc ls
        (f + 1) st B off h1 (by omega)] at hok ⊢
      refine ⟨[mk_scan_cmd type (if B = 58 then 58 * 8 else bls) tdi off
          (if B = ssb then fc else rc) (if B = ssb then fs else rs) lc ls origin true],
        ulink_append_scan_cmd_ok_appended usb st type _ tdi off _ _ lc ls origin true hok,
        ?_, by simp⟩
      simp only [List.length_singleton]
      omega

/-- C1: every command queue reachable by appending commands through
`ulink_append_queue` (each appended command having `payload_out_size` at
most 63 and `payload_in_size` at most 64) keeps the sum over queued
commands of `payload_out_size + 1` at most 64 and the sum of
`payload_in_size` at most 64; appending a command that would break either
bound first executes, post-processes and clears the queue, so that on a
successful such append the queue holds exactly the new command and one
more batch execution has happened. -/
theorem ulink_append_queue_batch_invariant :
    (∀ (usb : Usb) (st : DState), QueueReachable usb st →
      ulink_get_queue_size st.queue PayloadDirection.dirOut ≤ 64 ∧
      ulink_get_queue_size st.queue PayloadDirection.dirIn ≤ 64) ∧
    (∀ (usb : Usb) (st : DState) (c : UlinkCmd),
      (64 < ulink_get_queue_size st.queue PayloadDirection.dirOut + 1 + c.payload_out.length ∨
       64 < ulink_get_queue_size st.queue PayloadDirection.dirIn + c.payload_in_size) →
      (ulink_append_queue usb st c).2 = Outcome.ok →
      (ulink_append_queue usb st c).1.queue = [c] ∧
      (ulink_append_queue usb st c).1.usbClock = st.usbClock + 1) := by
  constructor
  · intro usb st hr
    induction hr with
    | empty st h => rw [h]; exact ⟨by simp [ulink_get_queue_size], by simp [ulink_get_queue_size]⟩
    | append st c hr hout hin ih =>
      by_cases hov :
          64 < ulink_get_queue_size st.queue PayloadDirection.dirOut + 1 + c.payload_out.length ∨
          64 < ulink_get_queue_size st.queue PayloadDirection.dirIn + c.payload_in_size
      · rcases hE : ulink_execute_queued_commands usb st.usbClock st.queue with ⟨tr, q2⟩
        cases q2 with
        | none => simpa [ulink_append_queue, hov, hE] using ih
        | some q2 =>
          constructor <;>
            simp [ulink_append_queue, hov, hE, ulink_post_process_queue_ok, enqueueCmd,
              ulink_get_queue_size] <;>
            omega
      · have h1 : ¬ 64 < ulink_get_queue_size st.queue PayloadDirection.dirOut
            + 1 + c.payload_out.length := fun h => hov (Or.inl h)
        have h2 : ¬ 64 < ulink_get_queue_size st.queue PayloadDirection.dirIn
            + c.payload_in_size := fun h => hov (Or.inr h)
        constructor <;>
          simp [ulink_append_queue, hov, enqueueCmd, ulink_get_queue_size_append,
            ulink_get_queue_size] <;>
          omega
  · intro usb st c hov hok
    rcases hE : ulink_execute_queued_commands usb st.usbClock st.queue with ⟨tr, q2⟩
    cases q2 with
    | none => simp [ulink_append_queue, hov, hE] at hok
    | some q2 =>
      constructor <;>
        simp [ulink_append_queue, hov, hE, ulink_post_process_queue_ok, enqueueCmd]

/-- Witness for C1: the empty queue satisfies the bounds, and appending a
small command to a full 64-byte queue flushes it and restarts the queue
with just that command. -/
theorem ulink_append_queue_batch_invariant_witness :
    (ulink_get_queue_size st0.queue PayloadDirection.dirOut ≤ 64 ∧
     ulink_get_queue_size st0.queue PayloadDirection.dirIn ≤ 64) ∧
    ((ulink_append_queue usbOk st1 (mk_clock_tms_cmd 1 1)).1.queue = [mk_clock_tms_cmd 1 1] ∧
     (ulink_append_queue usbOk st1 (mk_clock_tms_cmd 1 1)).1.usbClock = st1.usbClock + 1) :=
  ⟨ulink_append_queue_batch_invariant.1 usbOk st0 (QueueReachable.empty st0 rfl),
   ulink_append_queue_batch_invariant.2 usbOk st1 (mk_clock_tms_cmd 1 1)
     (by decide) (by decide)⟩

/-- C5 counterexample: for the non-stable state DREXIT1,
`ulink_set_end_state` terminates the process (`exit(EXIT_FAILURE)`,
modelled by `none`); it does not return an error value to its caller —
the C function returns `void`, so no error return exists at all. -/
theorem ulink_set_end_state_exits_cex :
    ulink_set_end_state TapState.dr_exit1 = none := by decide

/-- C5 (amended): for every stable TAP state, `ulink_set_end_state`
updates the desired end state; for every non-stable state it terminates
the process via `exit(EXIT_FAILURE)` (modelled by `none`) instead of
returning an error. -/
theorem ulink_set_end_state_behavior (s : TapState) :
    (tap_is_state_stable s = true → ulink_set_end_state s = some s) ∧
    (tap_is_state_stable s = false → ulink_set_end_state s = none) := by
  constructor <;> intro h <;> simp [ulink_set_end_state, h]

/-- Witness for C5: Idle is stable and is accepted; DREXIT2 is not stable
and makes the function exit. -/
theorem ulink_set_end_state_behavior_witness :
    ulink_set_end_state TapState.idle = some TapState.idle ∧
    ulink_set_end_state TapState.dr_exit2 = none :=
  ⟨(ulink_set_end_state_behavior TapState.idle).1 (by decide),
   (ulink_set_end_state_behavior TapState.dr_exit2).2 (by decide)⟩

/-- C7: whenever a TLR reset request succeeds, exactly one clock-tms wire
command with count 5 and sequence 0xFF has been appended to the batch, and
the TAP follower's current state is Reset afterwards. -/
theorem ulink_queue_tlr_reset_spec (usb : Usb) (st : DState)
    (hok : (ulink_queue_tlr_reset usb st).2 = Outcome.ok) :
    (ulink_queue_tlr_reset usb st).1.appended = st.appended ++ [mk_clock_tms_cmd 5 0xff] ∧
    (ulink_queue_tlr_reset usb st).1.tapState = TapState.reset := by
  by_cases hc : (ulink_append_queue usb st (mk_clock_tms_cmd 5 0xff)).2 = Outcome.ok
  · constructor
    · simpa [ulink_queue_tlr_reset, ulink_append_clock_tms_cmd, hc] using
        ulink_append_queue_ok_appended usb st (mk_clock_tms_cmd 5 0xff) hc
    · simp [ulink_queue_tlr_reset, ulink_append_clock_tms_cmd, hc]
  · simp [ulink_queue_tlr_reset, ulink_append_clock_tms_cmd, hc] at hok

/-- Witness for C7 at a concrete state and an always-succeeding USB oracle. -/
theorem ulink_queue_tlr_reset_spec_witness :
    (ulink_queue_tlr_reset usbOk st0).1.appended
      = st0.appended ++ [mk_clock_tms_cmd 5 0xff] ∧
    (ulink_queue_tlr_reset usbOk st0).1.tapState = TapState.reset :=
  ulink_queue_tlr_reset_spec usbOk st0 (by decide)

/-- C8: a sleep request with microsecond count `us` emits exactly one
sleep-us wire command whose two payload bytes are `us mod 256` and
`(us div 256) mod 256`, i.e. the little-endian encoding of `us mod 2^16`;
the translator performs nothing besides this emission (in particular no
host-side delay). -/
theorem ulink_queue_sleep_spec (usb : Usb) (st : DState) (us : Nat)
    (hok : (ulink_queue_sleep usb st us).2 = Outcome.ok) :
    (ulink_queue_sleep usb st us).1.appended = st.appended ++ [mk_sleep_cmd us] ∧
    (mk_sleep_cmd us).id = CmdId.sleep_us ∧
    (mk_sleep_cmd us).payload_out = [us % 256, us / 256 % 256] ∧
    us % 256 = us % 65536 % 256 ∧
    us / 256 % 256 = us % 65536 / 256 ∧
    (mk_sleep_cmd us).payload_out.length = 2 := by
  refine ⟨ulink_append_queue_ok_appended usb st (mk_sleep_cmd us) hok,
    rfl, rfl, by omega, by omega, rfl⟩

/-- Witness for C8 at `us = 1234` (payload `D2 04`). -/
theorem ulink_queue_sleep_spec_witness :
    (ulink_queue_sleep usbOk st0 1234).1.appended = st0.appended ++ [mk_sleep_cmd 1234] ∧
    (mk_sleep_cmd 1234).id = CmdId.sleep_us ∧
    (mk_sleep_cmd 1234).payload_out = [1234 % 256, 1234 / 256 % 256] ∧
    1234 % 256 = 1234 % 65536 % 256 ∧
    1234 / 256 % 256 = 1234 % 65536 / 256 ∧
    (mk_sleep_cmd 1234).payload_out.length = 2 :=
  ulink_queue_sleep_spec usbOk st0 1234 (by decide)

/-- C9: `ulink_speed_div` writes 150 for index 0 and 100 for index 1, and
for every other index returns success while leaving the output value
unchanged. -/
theorem ulink_speed_div_spec (khz : Int) (s : Int) :
    ulink_speed_div 0 khz = (ERROR_OK, 150) ∧
    ulink_speed_div 1 khz = (ERROR_OK, 100) ∧
    (s ≠ 0 → s ≠ 1 → ulink_speed_div s khz = (ERROR_OK, khz)) := by
  refine ⟨rfl, rfl, fun h0 h1 => ?_⟩
  simp [ulink_speed_div, h0, h1]

/-- Witness for C9 at indices 0 and 7 with incoming value 42. -/
theorem ulink_speed_div_spec_witness :
    ulink_speed_div 0 42 = (ERROR_OK, 150) ∧ ulink_speed_div 7 42 = (ERROR_OK, 42) :=
  ⟨(ulink_speed_div_spec 42 7).1, (ulink_speed_div_spec 42 7).2.2 (by decide) (by decide)⟩

/-- C10: a reset request that asserts TRST sets the TAP follower's current
state to Reset before attempting to append the set-signals command, so
after `ulink_queue_reset` returns — over every USB oracle, hence whether
the append succeeded or failed — the follower state is Reset. -/
theorem ulink_queue_reset_trst_spec (usb : Usb) (st : DState) (srst : Bool) :
    (ulink_queue_reset usb st true srst).1.tapState = TapState.reset := by
  cases srst <;>
    simp only [ulink_queue_reset, ulink_append_set_signals_cmd, if_true, if_false,
      Bool.false_eq_true, ite_true, ite_false] <;>
    exact (ulink_append_queue_tap usb { st with tapState := TapState.reset } _).1

/-- C2 (code bug): for a 457-bit IO scan the driver emits a single chunk
whose header byte 1 (bits in last byte) is 8 — the `bytecount == 58`
branch of `ulink_queue_scan` always emits a full `58 * 8`-bit command —
although `((457 - 1) mod 8) + 1 = 1`, so the adapter is told to shift 464
bits instead of the requested 457.  The final-chunk flags
(`needs_postprocessing`, ownership of the IN buffer) are set as specified. -/
theorem ulink_queue_scan_bits_last_byte_bug :
    (ulink_queue_scan g0 usbOk st0 false ScanType.scan_io 457 [] TapState.idle).2
      = Outcome.ok ∧
    ((ulink_queue_scan g0 usbOk st0 false ScanType.scan_io 457 [] TapState.idle).1.appended.map
      (fun c => c.payload_out.getD 1 0)) = [8] ∧
    ((ulink_queue_scan g0 usbOk st0 false ScanType.scan_io 457 [] TapState.idle).1.appended.map
      (fun c => c.needs_postprocessing)) = [true] ∧
    ((ulink_queue_scan g0 usbOk st0 false ScanType.scan_io 457 [] TapState.idle).1.appended.map
      (fun c => c.free_payload_in_start)) = [true] ∧
    (457 - 1) % 8 + 1 = 1 := by
  decide

/-- C3: a scan of `N` bits (`1 ≤ N`, within the `uint32_t` domain of the
driver's byte-count arithmetic) whose translation succeeds emits exactly
`ceil(ceil(N/8) / 58)` wire commands, and every non-final command carries
the byte count 58 in its header (58 TDI payload bytes: its OUT payload is
5 header bytes plus 58 TDI bytes for OUT and IO scans, and 5 header bytes
for IN scans). -/
theorem ulink_queue_scan_chunk_count (g : TapGraph) (usb : Usb) (st : DState)
    (ir_scan : Bool) (type : ScanType) (N : Nat) (tdi : List Nat) (es : TapState)
    (h1 : 1 ≤ N) (h2 : N + 7 < U32MOD)
    (hok : (ulink_queue_scan g usb st ir_scan type N tdi es).2 = Outcome.ok) :
    ∃ chunks : List UlinkCmd,
      (ulink_queue_scan g usb st ir_scan type N tdi es).1.appended
        = st.appended ++ chunks ∧
      chunks.length = ((N + 7) / 8 + 57) / 58 ∧
      ∀ c ∈ chunks.dropLast, c.payload_out.getD 0 0 = 58 ∧
        c.payload_out.length = (if type = ScanType.scan_in then 5 else 63) := by
  have hu : u32 (N + 7) = N + 7 := Nat.mod_eq_of_lt h2
  cases ir_scan
  all_goals (
    simp only [ulink_queue_scan, ulink_set_end_state, tap_is_state_stable, hu,
      Bool.false_eq_true, if_true, if_false, ite_true, ite_false] at hok ⊢
    split at hok)
  case false.isTrue hcond =>
    obtain ⟨chunks, hap, hlen, hprop⟩ :=
      ulink_queue_scan_loop_chunks usb type _ _ tdi _ _ _ _ _ _ _ _ _ _ _ _ _
        (by omega) (by omega) hcond
    refine ⟨chunks, ?_, hlen, hprop⟩
    simp only [hcond, ite_true, eq_self_iff_true]
    exact hap
  case false.isFalse hcond => exact absurd hok hcond
  case true.isTrue hcond =>
    obtain ⟨chunks, hap, hlen, hprop⟩ :=
      ulink_queue_scan_loop_chunks usb type _ _ tdi _ _ _ _ _ _ _ _ _ _ _ _ _
        (by omega) (by omega) hcond
    refine ⟨chunks, ?_, hlen, hprop⟩
    simp only [hcond, ite_true, eq_self_iff_true]
    exact hap
  case true.isFalse hcond => exact absurd hok hcond

/-- Witness for C3: a 520-bit OUT scan (65 TDI bytes) splits into two wire
commands, the non-final one carrying 58 TDI bytes. -/
theorem ulink_queue_scan_chunk_count_witness :
    ∃ chunks : List UlinkCmd,
      (ulink_queue_scan g0 usbOk st0 false ScanType.scan_out 520
          (List.replicate 65 170) TapState.idle).1.appended
        = st0.appended ++ chunks ∧
      chunks.length = ((520 + 7) / 8 + 57) / 58 ∧
      ∀ c ∈ chunks.dropLast, c.payload_out.getD 0 0 = 58 ∧
        c.payload_out.length = (if ScanType.scan_out = ScanType.scan_in then 5 else 63) :=
  ulink_queue_scan_chunk_count g0 usbOk st0 false ScanType.scan_out 520
    (List.replicate 65 170) TapState.idle (by decide) (by decide) (by decide)

/-- C4 counterexample.  First scenario: a single sleep request on a USB
oracle whose write fails; `ulink_execute_queue` returns the error but the
pending command queue is NOT cleared (the claim says it is left empty).
Second scenario: 21 sleeps fill the OUT budget and a runtest follows; the
flush triggered inside the runtest's statemove fails (batch execution 0 of
`usbFail0`), the runtest discards that statemove result (ulink.c:1478),
the retried flush succeeds, and `ulink_execute_queue` returns OK — a
transport error was silently swallowed inside a translator (the claim says
none is); three batch executions happened, including the failed one. -/
theorem ulink_execute_queue_error_cex :
    ((ulink_execute_queue g0 usbAllFail st0 [JtagRequest.sleep 5]).2 = Outcome.fail ∧
     (ulink_execute_queue g0 usbAllFail st0 [JtagRequest.sleep 5]).1.queue ≠ []) ∧
    ((ulink_execute_queue g0 usbFail0 st0 reqsSwallow).2 = Outcome.ok ∧
     (ulink_execute_queue g0 usbFail0 st0 reqsSwallow).1.usbClock = 3) := by
  decide

/-- C4 (amended): if a translator returns a non-OK result to the
`ulink_execute_queue` loop, the remaining requests are not processed and
that result is returned with the driver state — including the pending
queue, which is not cleared — exactly as the failing translator left it;
if the final flush's batch execution fails, the error is returned and the
pending queue is likewise left in place.  (Errors inside
`ulink_queue_runtest`'s statemoves are discarded by the source and never
reach the loop; see the counterexample.) -/
theorem ulink_execute_queue_fail_fast :
    (∀ (g : TapGraph) (usb : Usb) (st : DState) (r : JtagRequest)
        (rest : List JtagRequest),
      (ulink_process_one g usb st r).2 ≠ Outcome.ok →
      ulink_execute_queue g usb st (r :: rest) = ulink_process_one g usb st r) ∧
    (∀ (g : TapGraph) (usb : Usb) (st : DState) (reqs : List JtagRequest),
      (ulink_execute_queue_loop g usb st reqs).2 = Outcome.ok →
      (ulink_execute_queue_loop g usb st reqs).1.queue ≠ [] →
      (ulink_execute_queued_commands usb
          (ulink_execute_queue_loop g usb st reqs).1.usbClock
          (ulink_execute_queue_loop g usb st reqs).1.queue).2 = none →
      ulink_execute_queue g usb st reqs
        = ({ (ulink_execute_queue_loop g usb st reqs).1 with
              usbClock := (ulink_execute_queue_loop g usb st reqs).1.usbClock + 1 },
           Outcome.fail)) := by
  constructor
  · intro g usb st r rest hne
    have hloop : ulink_execute_queue_loop g usb st (r :: rest)
        = ulink_process_one g usb st r := by
      rw [ulink_execute_queue_loop]
      simp [hne]
    simp [ulink_execute_queue, hloop, hne]
  · intro g usb st reqs hok hqne hE
    have hlen : 0 < (ulink_execute_queue_loop g usb st reqs).1.queue.length :=
      List.length_pos.mpr hqne
    simp [ulink_execute_queue, hok, hlen, hE]

/-- Witness for C4: a failing translator aborts the queue, and a failing
final flush surfaces the error. -/
theorem ulink_execute_queue_fail_fast_witness :
    ulink_execute_queue g0 usbAllFail st1 [JtagRequest.sleep 0, JtagRequest.tlrReset]
      = ulink_process_one g0 usbAllFail st1 (JtagRequest.sleep 0) ∧
    ulink_execute_queue g0 usbAllFail st0 [JtagRequest.sleep 0]
      = ({ (ulink_execute_queue_loop g0 usbAllFail st0 [JtagRequest.sleep 0]).1 with
            usbClock :=
              (ulink_execute_queue_loop g0 usbAllFail st0 [JtagRequest.sleep 0]).1.usbClock
                + 1 },
         Outcome.fail) :=
  ⟨ulink_execute_queue_fail_fast.1 g0 usbAllFail st1 (JtagRequest.sleep 0)
      [JtagRequest.tlrReset] (by decide),
   ulink_execute_queue_fail_fast.2 g0 usbAllFail st0 [JtagRequest.sleep 0]
      (by decide) (by decide) (by decide)⟩

/-- C6 counterexample: for a queue holding one get-signals command
(`count_in = 2`), the bulk IN read is issued with a requested length of 64
bytes (the size of the read buffer in ulink.c:724), not of `count_in = 2`
bytes as the claim states. -/
theorem ulink_execute_read_request_cex :
    (ulink_execute_queued_commands usbSig 0 q1).1
      = [UsbOp.bulkWrite [OutByte.idByte CmdId.get_signals] 1, UsbOp.bulkRead 64] ∧
    ulink_get_queue_size q1 PayloadDirection.dirIn = 2 := by
  decide

/-- C6 (amended): `ulink_execute_queued_commands` serializes the queued
commands in order as `[id, payload_out...]` — the serialized packet has
exactly `count_out` bytes — and issues one bulk OUT write of `count_out`
bytes; any transfer count different from `count_out` is an error and no
read happens.  A bulk IN read is performed iff the summed inbound size
`count_in` is positive, requesting 64 bytes (the read buffer size) and
failing unless exactly `count_in` bytes are transferred; on success the
inbound buffer is scattered across the commands in original order, each
receiving its `payload_in_size` bytes into its view. -/
theorem ulink_execute_queued_commands_spec (usb : Usb) (clock : Nat)
    (q : List UlinkCmd) :
    (serializeQueue q).length = ulink_get_queue_size q PayloadDirection.dirOut ∧
    (usb.writeRet clock (ulink_get_queue_size q PayloadDirection.dirOut)
        ≠ (ulink_get_queue_size q PayloadDirection.dirOut : Int) →
      ulink_execute_queued_commands usb clock q
        = ([UsbOp.bulkWrite (serializeQueue q)
              (ulink_get_queue_size q PayloadDirection.dirOut)], none)) ∧
    (usb.writeRet clock (ulink_get_queue_size q PayloadDirection.dirOut)
        = (ulink_get_queue_size q PayloadDirection.dirOut : Int) →
      (ulink_get_queue_size q PayloadDirection.dirIn = 0 →
        ulink_execute_queued_commands usb clock q
          = ([UsbOp.bulkWrite (serializeQueue q)
                (ulink_get_queue_size q PayloadDirection.dirOut)], some q)) ∧
      (0 < ulink_get_queue_size q PayloadDirection.dirIn →
        (usb.readRet clock ≠ (ulink_get_queue_size q PayloadDirection.dirIn : Int) →
          ulink_execute_queued_commands usb clock q
            = ([UsbOp.bulkWrite (serializeQueue q)
                  (ulink_get_queue_size q PayloadDirection.dirOut),
                UsbOp.bulkRead 64], none)) ∧
        (usb.readRet clock = (ulink_get_queue_size q PayloadDirection.dirIn : Int) →
          ulink_execute_queued_commands usb clock q
            = ([UsbOp.bulkWrite (serializeQueue q)
                  (ulink_get_queue_size q PayloadDirection.dirOut),
                UsbOp.bulkRead 64],
               some (scatterQueue q (usb.readData clock)))))) ∧
    (∀ (b : List Nat) (i : Nat), i < q.length →
      (scatterQueue q b).getD i defaultCmd
        = { q.getD i defaultCmd with
            payload_in := (b.drop
                (ulink_get_queue_size (q.take i) PayloadDirection.dirIn)).take
              (q.getD i defaultCmd).payload_in_size }) := by
  refine ⟨serializeQueue_length q, ?_, ?_, fun b i h => scatterQueue_getD q b i h⟩
  · intro hw
    by_cases hneg : usb.writeRet clock (ulink_get_queue_size q PayloadDirection.dirOut) < 0
    · simp [ulink_execute_queued_commands, hneg]
    · simp [ulink_execute_queued_commands, hneg, hw]
  · intro hw
    have hneg : ¬ usb.writeRet clock (ulink_get_queue_size q PayloadDirection.dirOut) < 0 := by
      rw [hw]
      exact not_lt.mpr (Int.natCast_nonneg _)
    refine ⟨fun h0 => ?_, fun hpos => ⟨fun hr => ?_, fun hr => ?_⟩⟩
    · simp [ulink_execute_queued_commands, hneg, hw, h0]
    · by_cases hrneg : usb.readRet clock < 0
      · simp [ulink_execute_queued_commands, hneg, hw, hpos, hrneg]
      · simp [ulink_execute_queued_commands, hneg, hw, hpos, hrneg, hr]
    · have hrneg : ¬ usb.readRet clock < 0 := by
        rw [hr]
        exact not_lt.mpr (Int.natCast_nonneg _)
      have hc1 : ¬ ((ulink_get_queue_size q PayloadDirection.dirOut : Int) < 0) :=
        not_lt.mpr (Int.natCast_nonneg _)
      have hc2 : ¬ ((ulink_get_queue_size q PayloadDirection.dirIn : Int) < 0) :=
        not_lt.mpr (Int.natCast_nonneg _)
      simp [ulink_execute_queued_commands, hneg, hw, hpos, hrneg, hr, hc1, hc2]

/-- Witness for C6: executing the one-command get-signals queue against an
oracle delivering `[17, 34]` issues the write and the 64-byte read and
scatters both bytes into the command's view. -/
theorem ulink_execute_queued_commands_spec_witness :
    ulink_execute_queued_commands usbSig 0 q1
      = ([UsbOp.bulkWrite (serializeQueue q1)
            (ulink_get_queue_size q1 PayloadDirection.dirOut),
          UsbOp.bulkRead 64], some (scatterQueue q1 (usbSig.readData 0))) ∧
    (scatterQueue q1 [17, 34]).getD 0 defaultCmd
      = { q1.getD 0 defaultCmd with
          payload_in := (([17, 34] : List Nat).drop
              (ulink_get_queue_size (q1.take 0) PayloadDirection.dirIn)).take
            (q1.getD 0 defaultCmd).payload_in_size } :=
  ⟨(((ulink_execute_queued_commands_spec usbSig 0 q1).2.2.1
      (by decide)).2 (by decide)).2 (by decide),
   (ulink_execute_queued_commands_spec usbSig 0 q1).2.2.2 [17, 34] 0 (by decide)⟩
